import Mathlib

/-!
Shallow embedding of the admin-dashboard booking/assignment workflow,
the role-gated session guard, the login fault mapping, and the services
form, translated from the TypeScript/React source of the repository.
Machine state is modelled as explicit records; asynchronous backend
calls are modelled as explicit result parameters (Except for fallible
calls); the Firestore update-fields operation is modelled as a partial
merge into a string-keyed document.
-/

namespace AdminDash

/-- A JavaScript fault object as observed by the catch blocks: an
optional string code and an optional message (none models a missing
property, some "" models an empty string, which is falsy in JS). -/
structure FaultObj where
  code : Option String
  message : Option String
deriving DecidableEq, Repr

/-- A Firestore field value, covering the value shapes this app writes. -/
inductive FsValue where
  | str (s : String)
  | num (q : Rat)
  | boolean (b : Bool)
  | time (t : Nat)
  | nullv
deriving DecidableEq, Repr

/-- A stored document: a partial map from field names to values. -/
def FsDoc : Type := String → Option FsValue

/-- Firestore updateDoc semantics: fields named in the payload are
replaced, every other field of the stored document is untouched. -/
def updateFields (d : FsDoc) (payload : List (String × FsValue)) : FsDoc :=
  fun k =>
    match payload.find? (fun q => q.1 == k) with
    | some q => some q.2
    | none => d k

/-- The update payload issued by handleAssign (source lines 582-585):
exactly the technicianId and status fields. -/
def assignUpdatePayload (tid : String) : List (String × FsValue) :=
  [("technicianId", FsValue.str tid), ("status", FsValue.str "assigned")]

/-- BookingData as declared in the booking detail page. -/
structure BookingData where
  serviceId : String
  technicianId : Option String
  status : String
  customerName : String
  customerPhone : String
  customerAddress : String
  createdAt : Nat
  scheduledAt : Nat
  notes : Option String
deriving DecidableEq, Repr

/-- ActiveTechnician as listed in the assignment selector. -/
structure ActiveTechnician where
  id : String
  name : String
  skills : List String
deriving DecidableEq, Repr

/-- TechnicianData as fetched for the technician information panel. -/
structure TechnicianData where
  name : String
  phone : String
  email : String
  skills : List String
deriving DecidableEq, Repr

/-- Kind of the assignment result banner. -/
inductive MsgKind where
  | success
  | failure
deriving DecidableEq, Repr

/-- The assignmentMessage state value. -/
structure AssignMessage where
  kind : MsgKind
  text : String
deriving DecidableEq, Repr

/-- The React state of BookingDetailPage that the assignment workflow
reads and writes. -/
structure DetailState where
  booking : Option BookingData
  technician : Option TechnicianData
  activeTechnicians : List ActiveTechnician
  selectedTechnicianId : String
  isAssigning : Bool
  assignmentMessage : Option AssignMessage
  showConfirmDialog : Bool
deriving DecidableEq, Repr

/-- The write-fault message mapping of the handleAssign catch block
(source lines 618-625): permission-denied and unavailable are mapped to
fixed strings, any other fault with a non-empty message is surfaced as
"Error: " followed by that raw message, and only a fault without a
message falls back to the generic retry message. -/
def assignErrorMessage (e : FaultObj) : String :=
  if e.code = some "permission-denied" then
    "Permission denied. Please check your access rights."
  else if e.code = some "unavailable" then
    "Service temporarily unavailable. Please try again later."
  else
    match e.message with
    | some m => if m = "" then "Failed to assign technician. Please try again." else "Error: " ++ m
    | none => "Failed to assign technician. Please try again."

/-- JavaScript truthiness of an optional string field as tested by the
guards: null/undefined (none) and the empty string are falsy, every
other string is truthy. -/
def jsTruthy : Option String → Bool
  | none => false
  | some str => str != ""

/-- handleAssignClick (source lines 555-560): declines unless a
technician is selected, the booking exists, its technicianId is falsy
(null, undefined or the empty string), and no assignment is in flight;
otherwise it only opens the confirm dialog. -/
def handleAssignClick (s : DetailState) : DetailState :=
  match s.booking with
  | none => s
  | some b =>
    if s.selectedTechnicianId = "" ∨ jsTruthy b.technicianId = true ∨ s.isAssigning then s
    else { s with showConfirmDialog := true }

/-- The catch block of handleAssign (source lines 604-638): revert the
optimistic update to the pre-attempt booking with technicianId null and
the pre-attempt status, clear the technician detail, surface the mapped
fault message, and leave the single-flight state. -/
def assignRollback (s1 : DetailState) (b : BookingData) (e : FaultObj) : DetailState :=
  { s1 with
    booking := some { b with technicianId := none, status := b.status },
    technician := none,
    assignmentMessage := some ⟨MsgKind.failure, assignErrorMessage e⟩,
    isAssigning := false }

/-- The synchronous prefix of handleAssign up to and including issuing
the backend write (source lines 562-585): the guard, entering the
single-flight state, closing the dialog, the optimistic local update,
and the updateDoc call. The returned number counts writes issued. -/
def handleAssignStart (s : DetailState) : DetailState × Nat :=
  match s.booking with
  | none => (s, 0)
  | some b =>
    if s.selectedTechnicianId = "" ∨ jsTruthy b.technicianId = true then (s, 0)
    else
      ({ s with
          isAssigning := true,
          assignmentMessage := none,
          showConfirmDialog := false,
          booking := some { b with technicianId := some s.selectedTechnicianId, status := "assigned" } }, 1)

/-- handleAssign (source lines 562-639), with the outcome of the
updateDoc write and of the follow-up technician getDoc passed in
explicitly: an Except.error on either call lands in the catch block.
The guard (line 563) is the JS truthy test on the fields, so a booking
whose technicianId is the empty string proceeds. -/
def handleAssign (s : DetailState) (write : Except FaultObj Unit)
    (fetch : Except FaultObj (Option TechnicianData)) : DetailState :=
  match s.booking with
  | none => s
  | some b =>
    if s.selectedTechnicianId = "" ∨ jsTruthy b.technicianId = true then s
    else
      let selectedTechnician := s.activeTechnicians.find? (fun t => t.id == s.selectedTechnicianId)
      let s1 : DetailState :=
        { s with
          isAssigning := true,
          assignmentMessage := none,
          showConfirmDialog := false,
          booking := some { b with technicianId := some s.selectedTechnicianId, status := "assigned" } }
      match write with
      | Except.error e => assignRollback s1 b e
      | Except.ok _ =>
        match fetch with
        | Except.error e => assignRollback s1 b e
        | Except.ok td =>
          let s2 := match td with
            | some t => { s1 with technician := some t }
            | none => s1
          { s2 with
            selectedTechnicianId := "",
            assignmentMessage := some ⟨MsgKind.success,
              "Technician " ++ (match selectedTechnician with
                | some t => t.name
                | none => "") ++ " assigned successfully."⟩,
            isAssigning := false }

/-- User-interface events of the booking detail page relevant to the
assignment workflow: changing the selector, clicking Assign, clicking
Confirm Assign, clicking the dialog backdrop, clicking Cancel. -/
inductive UIEvent where
  | selectTech (tid : String)
  | assignClick
  | confirmClick
  | backdropClick
  | cancelClick
deriving DecidableEq, Repr

/-- One user-interface event step, returning the new state and the
number of backend writes issued by the event. The selector is disabled
while assigning (source line 980); the backdrop dismiss runs only when
the dialog is shown and not assigning (source line 1009); the Cancel and
Confirm buttons exist only while the dialog is shown and are disabled
while assigning (source lines 1031, 1039). -/
def uiStep (s : DetailState) (e : UIEvent) : DetailState × Nat :=
  match e with
  | UIEvent.selectTech tid =>
    if s.isAssigning then (s, 0) else ({ s with selectedTechnicianId := tid }, 0)
  | UIEvent.assignClick => (handleAssignClick s, 0)
  | UIEvent.confirmClick =>
    if s.showConfirmDialog && !s.isAssigning then handleAssignStart s else (s, 0)
  | UIEvent.backdropClick =>
    if s.showConfirmDialog && !s.isAssigning then ({ s with showConfirmDialog := false }, 0) else (s, 0)
  | UIEvent.cancelClick =>
    if s.showConfirmDialog && !s.isAssigning then ({ s with showConfirmDialog := false }, 0) else (s, 0)

/-- Run a sequence of user-interface events, accumulating the number of
backend writes issued. -/
def runUI : DetailState → List UIEvent → DetailState × Nat
  | s, [] => (s, 0)
  | s, e :: rest =>
    let p := uiStep s e
    let q := runUI p.1 rest
    (q.1, p.2 + q.2)

/-- A users/{uid} profile document. -/
structure UserDoc where
  role : String
  email : String
deriving DecidableEq, Repr

/-- The authorization-relevant React state of DashboardLayout. -/
structure GuardState where
  loading : Bool
  isAuthorized : Bool
  authChecked : Bool
deriving DecidableEq, Repr

/-- The result of one run of the guard callback: the final state plus
whether a redirect to the login screen and a sign-out were performed. -/
structure GuardOutcome where
  state : GuardState
  redirectedToLogin : Bool
  signedOut : Bool
deriving DecidableEq, Repr

/-- Initial DashboardLayout state (source lines 20-23). -/
def guardInit : GuardState := ⟨true, false, false⟩

/-- The onAuthStateChanged callback body of DashboardLayout (source
part_000 lines 41-101), with the current session user and the profile
getDoc outcome passed in explicitly. Note that the fault branches mark
the check complete and redirect but never call signOut, and that
isAuthorized is only ever set to true, never reset. -/
def guardStep (prev : GuardState) (user : Option String)
    (fetch : String → Except Unit (Option UserDoc)) : GuardOutcome :=
  match user with
  | none => ⟨⟨false, prev.isAuthorized, true⟩, true, false⟩
  | some uid =>
    match fetch uid with
    | Except.error _ => ⟨⟨false, prev.isAuthorized, true⟩, true, false⟩
    | Except.ok none => ⟨⟨false, prev.isAuthorized, true⟩, true, false⟩
    | Except.ok (some userData) =>
      if userData.role ≠ "admin" then ⟨⟨false, prev.isAuthorized, true⟩, true, false⟩
      else ⟨⟨false, true, true⟩, false, false⟩

/-- The render gate of DashboardLayout (source part_000 line 112):
protected content renders only when loading is over, the check is
complete, and the user is authorized. -/
def rendersProtected (g : GuardState) : Bool :=
  !(g.loading || !g.authChecked || !g.isAuthorized)

/-- The sign-in fault message mapping of the login page catch block
(source lines 90-109): five mapped codes, then any fault with a
non-empty message is surfaced raw, and only a fault without a message
falls back to the generic retry message. -/
def loginErrorMessage (e : FaultObj) : String :=
  if e.code = some "auth/user-not-found" then "No account found with this email address."
  else if e.code = some "auth/wrong-password" then "Incorrect password. Please try again."
  else if e.code = some "auth/invalid-email" then "Invalid email address."
  else if e.code = some "auth/user-disabled" then "This account has been disabled."
  else if e.code = some "auth/too-many-requests" then "Too many failed attempts. Please try again later."
  else
    match e.message with
    | some m => if m = "" then "Failed to sign in. Please try again." else m
    | none => "Failed to sign in. Please try again."

/-- Observable outcome of one login submission. -/
structure LoginOutcome where
  error : Option String
  signedOut : Bool
  redirectedToDashboard : Bool
deriving DecidableEq, Repr

/-- handleSubmit of the login page (source lines 53-113), with the
sign-in outcome (uid on success) and the profile getDoc outcome passed
in explicitly. A missing profile or a non-admin role forces a sign-out
and an access-denied error; faults from either backend call land in the
catch block and are mapped by loginErrorMessage. -/
def loginHandleSubmit (email password : String) (signIn : Except FaultObj String)
    (fetch : String → Except FaultObj (Option UserDoc)) : LoginOutcome :=
  if email = "" ∨ password = "" then ⟨some "Please enter both email and password", false, false⟩
  else
    match signIn with
    | Except.error e => ⟨some (loginErrorMessage e), false, false⟩
    | Except.ok uid =>
      match fetch uid with
      | Except.error e => ⟨some (loginErrorMessage e), false, false⟩
      | Except.ok none => ⟨some "Access denied. User account not found.", true, false⟩
      | Except.ok (some userData) =>
        if userData.role ≠ "admin" then ⟨some "Access denied. Admin privileges required.", true, false⟩
        else ⟨none, false, true⟩

/-- A backend write issued by the services form: either an update of an
existing document or a creation of a new one. -/
inductive ServiceWrite where
  | update (id : String) (payload : List (String × FsValue))
  | create (payload : List (String × FsValue))
deriving DecidableEq, Repr

/-- JavaScript String.prototype.trim: strip whitespace from both ends
of the string (modelled over the character list of the string). -/
def jsTrim (s : String) : String :=
  ⟨((s.data.dropWhile Char.isWhitespace).reverse.dropWhile Char.isWhitespace).reverse⟩

/-- The serviceData object built by the services form submit handler
(source part_001 lines 165-170): exactly title, category, price and
duration. The price and duration arguments stand for the parsed numeric
form values; none models an empty input string. -/
def serviceDataPayload (title category : String) (price : Rat) (duration : Int) : List (String × FsValue) :=
  [("title", FsValue.str (jsTrim title)),
   ("category", FsValue.str (if jsTrim category = "" then "" else jsTrim category)),
   ("price", FsValue.num price),
   ("duration", FsValue.num (duration : Rat))]

/-- handleSubmit of the services page (source part_001 lines 142-220):
validation, then either an updateDoc with the four serviceData fields
(edit path) or an addDoc that additionally sets isActive true and a
createdAt timestamp (create path). Returns none when validation fails
and no write is issued. -/
def servicesHandleSubmit (editingServiceId : Option String) (title category : String)
    (price : Option Rat) (duration : Option Int) (now : Nat) : Option ServiceWrite :=
  if jsTrim title = "" then none
  else
    match price with
    | none => none
    | some p =>
      if p ≤ 0 then none
      else
        match duration with
        | none => none
        | some d =>
          if d ≤ 0 then none
          else
            match editingServiceId with
            | some id => some (ServiceWrite.update id (serviceDataPayload title category p d))
            | none =>
              some (ServiceWrite.create
                (serviceDataPayload title category p d ++
                  [("isActive", FsValue.boolean true), ("createdAt", FsValue.time now)]))

/-- C8: the confirmed-assignment write updates exactly the technicianId
and status fields of the booking document; serviceId, customerName,
customerPhone, customerAddress, createdAt, scheduledAt and notes are
untouched by the write. -/
theorem assign_write_frame (d : FsDoc) (tid : String) :
    updateFields d (assignUpdatePayload tid) "technicianId" = some (FsValue.str tid) ∧
    updateFields d (assignUpdatePayload tid) "status" = some (FsValue.str "assigned") ∧
    updateFields d (assignUpdatePayload tid) "serviceId" = d "serviceId" ∧
    updateFields d (assignUpdatePayload tid) "customerName" = d "customerName" ∧
    updateFields d (assignUpdatePayload tid) "customerPhone" = d "customerPhone" ∧
    updateFields d (assignUpdatePayload tid) "customerAddress" = d "customerAddress" ∧
    updateFields d (assignUpdatePayload tid) "createdAt" = d "createdAt" ∧
    updateFields d (assignUpdatePayload tid) "scheduledAt" = d "scheduledAt" ∧
    updateFields d (assignUpdatePayload tid) "notes" = d "notes" := by
  refine ⟨rfl, rfl, rfl, rfl, rfl, rfl, rfl, rfl, rfl⟩

/-- C10: an edit of an existing service issues an update writing exactly
the four fields title, category, price and duration; the isActive flag
and the createdAt timestamp are not named in the payload and keep their
stored values under the update. -/
theorem service_edit_frame (id title category : String) (p : Rat) (dur : Int)
    (d : FsDoc) (now : Nat)
    (ht : jsTrim title ≠ "") (hp : 0 < p) (hd : 0 < dur) :
    servicesHandleSubmit (some id) title category (some p) (some dur) now
      = some (ServiceWrite.update id (serviceDataPayload title category p dur)) ∧
    (serviceDataPayload title category p dur).map Prod.fst
      = ["title", "category", "price", "duration"] ∧
    updateFields d (serviceDataPayload title category p dur) "isActive" = d "isActive" ∧
    updateFields d (serviceDataPayload title category p dur) "createdAt" = d "createdAt" := by
  refine ⟨?_, rfl, ?_, ?_⟩
  · simp [servicesHandleSubmit, ht, not_le.mpr hp, not_le.mpr hd]
  · simp only [updateFields, serviceDataPayload]
    split
    · rename_i q hq
      simp [List.find?] at hq
    · rfl
  · simp only [updateFields, serviceDataPayload]
    split
    · rename_i q hq
      simp [List.find?] at hq
    · rfl

/-- Witness for the C10 theorem at a concrete edited service. -/
theorem service_edit_frame_witness :
    servicesHandleSubmit (some "s1") "Cleaning" " Home " (some 100) (some 60) 7
      = some (ServiceWrite.update "s1" (serviceDataPayload "Cleaning" " Home " 100 60)) ∧
    (serviceDataPayload "Cleaning" " Home " 100 60).map Prod.fst
      = ["title", "category", "price", "duration"] ∧
    updateFields (fun _ => some (FsValue.boolean false)) (serviceDataPayload "Cleaning" " Home " 100 60) "isActive"
      = (fun _ => some (FsValue.boolean false)) "isActive" ∧
    updateFields (fun _ => some (FsValue.boolean false)) (serviceDataPayload "Cleaning" " Home " 100 60) "createdAt"
      = (fun _ => some (FsValue.boolean false)) "createdAt" :=
  service_edit_frame "s1" "Cleaning" " Home " 100 60 (fun _ => some (FsValue.boolean false)) 7
    (by decide) (by decide) (by decide)

/-- Counterexample for C4: a present but empty-string technicianId is
falsy in the JS guards (lines 556 and 563), so on such a booking with a
staged selection the click handler opens the confirm dialog (a local
state change) and the confirmed handler issues the write, refuting the
claimed no-op for a booking whose technicianId is already set. -/
theorem assign_empty_id_counterexample :
    handleAssignClick
        { booking := some ⟨"svc1", some "", "pending", "C", "P", "A", 1, 2, none⟩,
          technician := none, activeTechnicians := [⟨"t1", "Asha", ["wiring"]⟩],
          selectedTechnicianId := "t1", isAssigning := false,
          assignmentMessage := none, showConfirmDialog := false }
      ≠ { booking := some ⟨"svc1", some "", "pending", "C", "P", "A", 1, 2, none⟩,
          technician := none, activeTechnicians := [⟨"t1", "Asha", ["wiring"]⟩],
          selectedTechnicianId := "t1", isAssigning := false,
          assignmentMessage := none, showConfirmDialog := false } ∧
    (handleAssignClick
        { booking := some ⟨"svc1", some "", "pending", "C", "P", "A", 1, 2, none⟩,
          technician := none, activeTechnicians := [⟨"t1", "Asha", ["wiring"]⟩],
          selectedTechnicianId := "t1", isAssigning := false,
          assignmentMessage := none, showConfirmDialog := false }).showConfirmDialog = true ∧
    (handleAssignStart
        { booking := some ⟨"svc1", some "", "pending", "C", "P", "A", 1, 2, none⟩,
          technician := none, activeTechnicians := [⟨"t1", "Asha", ["wiring"]⟩],
          selectedTechnicianId := "t1", isAssigning := false,
          assignmentMessage := none, showConfirmDialog := false }).2 = 1 := by
  refine ⟨by decide, rfl, rfl⟩

/-- C4 amended: attempting assignment with no technician selected, or
on a booking whose technicianId is set to a non-empty id, is a no-op in
both the click handler and the assignment handler: no state change, no
dialog, no message, and zero writes issued. A present but empty-string
technicianId is falsy in the JS guards and is treated as unassigned. -/
theorem assign_noop (s : DetailState)
    (h : s.selectedTechnicianId = ""
      ∨ ∃ b tid, s.booking = some b ∧ b.technicianId = some tid ∧ tid ≠ "") :
    handleAssignClick s = s ∧
    (∀ w f, handleAssign s w f = s) ∧
    handleAssignStart s = (s, 0) := by
  rcases h with h1 | ⟨b, tid, hb, htid, htne⟩
  · cases hb : s.booking with
    | none =>
      exact ⟨by simp [handleAssignClick, hb], fun w f => by simp [handleAssign, hb],
             by simp [handleAssignStart, hb]⟩
    | some b =>
      exact ⟨by simp [handleAssignClick, hb, h1], fun w f => by simp [handleAssign, hb, h1],
             by simp [handleAssignStart, hb, h1]⟩
  · have htr : jsTruthy b.technicianId = true := by
      simp [jsTruthy, htid, htne]
    exact ⟨by simp [handleAssignClick, hb, htr], fun w f => by simp [handleAssign, hb, htr],
           by simp [handleAssignStart, hb, htr]⟩

/-- Witness for the C4 theorem at a concrete already-assigned booking. -/
theorem assign_noop_witness :
    handleAssignClick
        { booking := some ⟨"svc1", some "t9", "assigned", "C", "P", "A", 1, 2, none⟩,
          technician := none, activeTechnicians := [], selectedTechnicianId := "t1",
          isAssigning := false, assignmentMessage := none, showConfirmDialog := false }
      = { booking := some ⟨"svc1", some "t9", "assigned", "C", "P", "A", 1, 2, none⟩,
          technician := none, activeTechnicians := [], selectedTechnicianId := "t1",
          isAssigning := false, assignmentMessage := none, showConfirmDialog := false } ∧
    handleAssign
        { booking := some ⟨"svc1", some "t9", "assigned", "C", "P", "A", 1, 2, none⟩,
          technician := none, activeTechnicians := [], selectedTechnicianId := "t1",
          isAssigning := false, assignmentMessage := none, showConfirmDialog := false }
        (Except.ok ()) (Except.ok none)
      = { booking := some ⟨"svc1", some "t9", "assigned", "C", "P", "A", 1, 2, none⟩,
          technician := none, activeTechnicians := [], selectedTechnicianId := "t1",
          isAssigning := false, assignmentMessage := none, showConfirmDialog := false } ∧
    handleAssignStart
        { booking := some ⟨"svc1", some "t9", "assigned", "C", "P", "A", 1, 2, none⟩,
          technician := none, activeTechnicians := [], selectedTechnicianId := "t1",
          isAssigning := false, assignmentMessage := none, showConfirmDialog := false }
      = ({ booking := some ⟨"svc1", some "t9", "assigned", "C", "P", "A", 1, 2, none⟩,
           technician := none, activeTechnicians := [], selectedTechnicianId := "t1",
           isAssigning := false, assignmentMessage := none, showConfirmDialog := false }, 0) := by
  have h := assign_noop
    { booking := some ⟨"svc1", some "t9", "assigned", "C", "P", "A", 1, 2, none⟩,
      technician := none, activeTechnicians := [], selectedTechnicianId := "t1",
      isAssigning := false, assignmentMessage := none, showConfirmDialog := false }
    (Or.inr ⟨⟨"svc1", some "t9", "assigned", "C", "P", "A", 1, 2, none⟩, "t9", rfl, rfl, by decide⟩)
  exact ⟨h.1, h.2.1 _ _, h.2.2⟩

/-- C2: when the backend write fails, the handler rolls back the
optimistic update: the local booking equals its pre-attempt value (with
technicianId reverted to null and status untouched), the cached
technician detail is cleared, and the single-flight state is left. -/
theorem assign_failure_rollback (s : DetailState) (b : BookingData) (e : FaultObj)
    (fetch : Except FaultObj (Option TechnicianData))
    (hb : s.booking = some b) (hnull : b.technicianId = none) (hsel : s.selectedTechnicianId ≠ "") :
    (handleAssign s (Except.error e) fetch).booking = some b ∧
    (handleAssign s (Except.error e) fetch).technician = none ∧
    (handleAssign s (Except.error e) fetch).isAssigning = false := by
  have hb2 : ({ b with technicianId := none, status := b.status } : BookingData) = b := by
    cases b
    simp_all
  simp [handleAssign, hb, hnull, hsel, assignRollback, hb2, jsTruthy]

/-- Witness for the C2 theorem at a concrete failing write. -/
theorem assign_failure_rollback_witness :
    (handleAssign
        { booking := some ⟨"svc1", none, "pending", "C", "P", "A", 1, 2, none⟩,
          technician := none, activeTechnicians := [⟨"t1", "Asha", ["wiring"]⟩],
          selectedTechnicianId := "t1", isAssigning := false,
          assignmentMessage := none, showConfirmDialog := true }
        (Except.error ⟨some "permission-denied", none⟩) (Except.ok none)).booking
      = some ⟨"svc1", none, "pending", "C", "P", "A", 1, 2, none⟩ ∧
    (handleAssign
        { booking := some ⟨"svc1", none, "pending", "C", "P", "A", 1, 2, none⟩,
          technician := none, activeTechnicians := [⟨"t1", "Asha", ["wiring"]⟩],
          selectedTechnicianId := "t1", isAssigning := false,
          assignmentMessage := none, showConfirmDialog := true }
        (Except.error ⟨some "permission-denied", none⟩) (Except.ok none)).technician = none ∧
    (handleAssign
        { booking := some ⟨"svc1", none, "pending", "C", "P", "A", 1, 2, none⟩,
          technician := none, activeTechnicians := [⟨"t1", "Asha", ["wiring"]⟩],
          selectedTechnicianId := "t1", isAssigning := false,
          assignmentMessage := none, showConfirmDialog := true }
        (Except.error ⟨some "permission-denied", none⟩) (Except.ok none)).isAssigning = false :=
  assign_failure_rollback _ _ _ _ rfl rfl (by decide)

/-- Counterexample for C1: the backend update succeeds, but the
follow-up technician fetch inside the same try block faults, so the
handler lands in the catch block: the local booking is reverted to
technicianId null instead of converging to the selected technician, the
technician detail is cleared, the staged selection is not cleared, and
an error message is surfaced instead of a success message — the claim
as stated is false on this code although the write succeeded. -/
theorem assign_fetch_fault_counterexample :
    (handleAssign
        { booking := some ⟨"svc1", none, "pending", "C", "P", "A", 1, 2, none⟩,
          technician := none, activeTechnicians := [⟨"t1", "Asha", ["wiring"]⟩],
          selectedTechnicianId := "t1", isAssigning := false,
          assignmentMessage := none, showConfirmDialog := true }
        (Except.ok ()) (Except.error ⟨none, some "network down"⟩)).booking
      = some ⟨"svc1", none, "pending", "C", "P", "A", 1, 2, none⟩ ∧
    (handleAssign
        { booking := some ⟨"svc1", none, "pending", "C", "P", "A", 1, 2, none⟩,
          technician := none, activeTechnicians := [⟨"t1", "Asha", ["wiring"]⟩],
          selectedTechnicianId := "t1", isAssigning := false,
          assignmentMessage := none, showConfirmDialog := true }
        (Except.ok ()) (Except.error ⟨none, some "network down"⟩)).technician = none ∧
    (handleAssign
        { booking := some ⟨"svc1", none, "pending", "C", "P", "A", 1, 2, none⟩,
          technician := none, activeTechnicians := [⟨"t1", "Asha", ["wiring"]⟩],
          selectedTechnicianId := "t1", isAssigning := false,
          assignmentMessage := none, showConfirmDialog := true }
        (Except.ok ()) (Except.error ⟨none, some "network down"⟩)).assignmentMessage
      = some ⟨MsgKind.failure, "Error: network down"⟩ ∧
    (handleAssign
        { booking := some ⟨"svc1", none, "pending", "C", "P", "A", 1, 2, none⟩,
          technician := none, activeTechnicians := [⟨"t1", "Asha", ["wiring"]⟩],
          selectedTechnicianId := "t1", isAssigning := false,
          assignmentMessage := none, showConfirmDialog := true }
        (Except.ok ()) (Except.error ⟨none, some "network down"⟩)).selectedTechnicianId
      = "t1" := by
  refine ⟨by decide, by decide, by decide, by decide⟩

/-- C1 amended: when the backend write succeeds for the selected
technician T (the staged selection found in the active list) and the
follow-up technician fetch also completes without fault, the local
booking has technicianId equal to the id of T and status assigned, the
staged selection is cleared, and a success message containing the name
of T is emitted; when the fetched document exists, the displayed
technician detail equals the stored record. A fault in the follow-up
fetch instead lands in the catch block and rolls the booking back. -/
theorem assign_success_convergence (s : DetailState) (b : BookingData)
    (T : ActiveTechnician) (td? : Option TechnicianData)
    (hb : s.booking = some b) (hnull : b.technicianId = none)
    (hsel : s.selectedTechnicianId = T.id) (hne : T.id ≠ "")
    (hfind : s.activeTechnicians.find? (fun t => t.id == T.id) = some T) :
    (handleAssign s (Except.ok ()) (Except.ok td?)).booking
      = some { b with technicianId := some T.id, status := "assigned" } ∧
    (handleAssign s (Except.ok ()) (Except.ok td?)).selectedTechnicianId = "" ∧
    (handleAssign s (Except.ok ()) (Except.ok td?)).assignmentMessage
      = some ⟨MsgKind.success, "Technician " ++ T.name ++ " assigned successfully."⟩ ∧
    (handleAssign s (Except.ok ()) (Except.ok td?)).isAssigning = false ∧
    (∀ td, td? = some td → (handleAssign s (Except.ok ()) (Except.ok td?)).technician = some td) ∧
    (∃ pre post, (handleAssign s (Except.ok ()) (Except.ok td?)).assignmentMessage
      = some ⟨MsgKind.success, pre ++ T.name ++ post⟩) := by
  cases td? with
  | none =>
    have hmain : handleAssign s (Except.ok ()) (Except.ok none)
        = { s with
            isAssigning := false,
            assignmentMessage := some ⟨MsgKind.success, "Technician " ++ T.name ++ " assigned successfully."⟩,
            showConfirmDialog := false,
            booking := some { b with technicianId := some T.id, status := "assigned" },
            selectedTechnicianId := "" } := by
      simp [handleAssign, hb, hnull, hsel, hne, hfind, jsTruthy]
    refine ⟨by simp [hmain], by simp [hmain], by simp [hmain], by simp [hmain],
            ?_, "Technician ", " assigned successfully.", by simp [hmain]⟩
    intro td htd
    simp at htd
  | some td =>
    have hmain : handleAssign s (Except.ok ()) (Except.ok (some td))
        = { s with
            isAssigning := false,
            assignmentMessage := some ⟨MsgKind.success, "Technician " ++ T.name ++ " assigned successfully."⟩,
            showConfirmDialog := false,
            booking := some { b with technicianId := some T.id, status := "assigned" },
            technician := some td,
            selectedTechnicianId := "" } := by
      simp [handleAssign, hb, hnull, hsel, hne, hfind, jsTruthy]
    refine ⟨by simp [hmain], by simp [hmain], by simp [hmain], by simp [hmain],
            ?_, "Technician ", " assigned successfully.", by simp [hmain]⟩
    intro td2 htd
    have : td = td2 := by simpa using htd
    subst this
    simp [hmain]

/-- Witness for the C1 theorem at a concrete successful assignment. -/
theorem assign_success_convergence_witness :
    (handleAssign
        { booking := some ⟨"svc1", none, "pending", "C", "P", "A", 1, 2, none⟩,
          technician := none, activeTechnicians := [⟨"t1", "Asha", ["wiring"]⟩],
          selectedTechnicianId := "t1", isAssigning := false,
          assignmentMessage := none, showConfirmDialog := true }
        (Except.ok ()) (Except.ok (some ⟨"Asha", "999", "a@x.y", ["wiring"]⟩))).booking
      = some ⟨"svc1", some "t1", "assigned", "C", "P", "A", 1, 2, none⟩ ∧
    (handleAssign
        { booking := some ⟨"svc1", none, "pending", "C", "P", "A", 1, 2, none⟩,
          technician := none, activeTechnicians := [⟨"t1", "Asha", ["wiring"]⟩],
          selectedTechnicianId := "t1", isAssigning := false,
          assignmentMessage := none, showConfirmDialog := true }
        (Except.ok ()) (Except.ok (some ⟨"Asha", "999", "a@x.y", ["wiring"]⟩))).technician
      = some ⟨"Asha", "999", "a@x.y", ["wiring"]⟩ ∧
    (handleAssign
        { booking := some ⟨"svc1", none, "pending", "C", "P", "A", 1, 2, none⟩,
          technician := none, activeTechnicians := [⟨"t1", "Asha", ["wiring"]⟩],
          selectedTechnicianId := "t1", isAssigning := false,
          assignmentMessage := none, showConfirmDialog := true }
        (Except.ok ()) (Except.ok (some ⟨"Asha", "999", "a@x.y", ["wiring"]⟩))).selectedTechnicianId = "" ∧
    (handleAssign
        { booking := some ⟨"svc1", none, "pending", "C", "P", "A", 1, 2, none⟩,
          technician := none, activeTechnicians := [⟨"t1", "Asha", ["wiring"]⟩],
          selectedTechnicianId := "t1", isAssigning := false,
          assignmentMessage := none, showConfirmDialog := true }
        (Except.ok ()) (Except.ok (some ⟨"Asha", "999", "a@x.y", ["wiring"]⟩))).assignmentMessage
      = some ⟨MsgKind.success, "Technician Asha assigned successfully."⟩ := by
  have h := assign_success_convergence
    { booking := some ⟨"svc1", none, "pending", "C", "P", "A", 1, 2, none⟩,
      technician := none, activeTechnicians := [⟨"t1", "Asha", ["wiring"]⟩],
      selectedTechnicianId := "t1", isAssigning := false,
      assignmentMessage := none, showConfirmDialog := true }
    ⟨"svc1", none, "pending", "C", "P", "A", 1, 2, none⟩
    ⟨"t1", "Asha", ["wiring"]⟩ (some ⟨"Asha", "999", "a@x.y", ["wiring"]⟩)
    rfl rfl rfl (by decide) rfl
  exact ⟨h.1, h.2.2.2.2.1 _ rfl, h.2.1, h.2.2.1⟩

/-- C6: the role-gated session guard fails closed: starting from the
initial unauthorized state, the final authorized state is true exactly
when the session exists, the profile fetch succeeds with an existing
document, and its role equals admin; and protected content renders
exactly when the final state is authorized. -/
theorem guard_fail_closed (u : Option String) (fetch : String → Except Unit (Option UserDoc)) :
    ((guardStep guardInit u fetch).state.isAuthorized = true
      ↔ ∃ uid userData, u = some uid ∧ fetch uid = Except.ok (some userData) ∧ userData.role = "admin") ∧
    rendersProtected (guardStep guardInit u fetch).state
      = (guardStep guardInit u fetch).state.isAuthorized := by
  cases u with
  | none => simp [guardStep, guardInit, rendersProtected]
  | some uid =>
    cases hf : fetch uid with
    | error e => simp [guardStep, guardInit, rendersProtected, hf]
    | ok od =>
      cases od with
      | none => simp [guardStep, guardInit, rendersProtected, hf]
      | some userData =>
        by_cases hr : userData.role = "admin" <;>
          simp [guardStep, guardInit, rendersProtected, hf, hr]

/-- Counterexample for C5: on a non-admin profile the session guard
redirects to the login screen but performs no forced sign-out, so the
claim that authorization faults terminate the session by a forced
sign-out in the session guard is false on this code. -/
theorem guard_no_signout_counterexample :
    (guardStep guardInit (some "u1")
        (fun _ => Except.ok (some ⟨"user", "user@example.com"⟩))).signedOut = false ∧
    (guardStep guardInit (some "u1")
        (fun _ => Except.ok (some ⟨"user", "user@example.com"⟩))).redirectedToLogin = true ∧
    (guardStep guardInit (some "u1")
        (fun _ => Except.ok (some ⟨"user", "user@example.com"⟩))).state.isAuthorized = false := by
  refine ⟨rfl, rfl, rfl⟩

/-- C5 amended: for every authorization fault (missing profile document
or non-admin role), the login flow terminates the session by a forced
sign-out and surfaces an access-denied error while staying on the login
screen, whereas the role-gated session guard marks the user
unauthorized and redirects to the login screen without a forced
sign-out. -/
theorem auth_fault_handling (uid email password : String) (userData : UserDoc)
    (he : email ≠ "") (hp : password ≠ "") (hrole : userData.role ≠ "admin") :
    (guardStep guardInit (some uid) (fun _ => Except.ok none)).redirectedToLogin = true ∧
    (guardStep guardInit (some uid) (fun _ => Except.ok none)).signedOut = false ∧
    (guardStep guardInit (some uid) (fun _ => Except.ok none)).state.isAuthorized = false ∧
    (guardStep guardInit (some uid) (fun _ => Except.ok (some userData))).redirectedToLogin = true ∧
    (guardStep guardInit (some uid) (fun _ => Except.ok (some userData))).signedOut = false ∧
    (guardStep guardInit (some uid) (fun _ => Except.ok (some userData))).state.isAuthorized = false ∧
    (loginHandleSubmit email password (Except.ok uid) (fun _ => Except.ok none)).signedOut = true ∧
    (loginHandleSubmit email password (Except.ok uid) (fun _ => Except.ok none)).error
      = some "Access denied. User account not found." ∧
    (loginHandleSubmit email password (Except.ok uid) (fun _ => Except.ok none)).redirectedToDashboard = false ∧
    (loginHandleSubmit email password (Except.ok uid) (fun _ => Except.ok (some userData))).signedOut = true ∧
    (loginHandleSubmit email password (Except.ok uid) (fun _ => Except.ok (some userData))).error
      = some "Access denied. Admin privileges required." ∧
    (loginHandleSubmit email password (Except.ok uid) (fun _ => Except.ok (some userData))).redirectedToDashboard = false := by
  simp [guardStep, guardInit, loginHandleSubmit, he, hp, hrole]

/-- Witness for the C5 amended theorem at concrete inputs. -/
theorem auth_fault_handling_witness :
    (guardStep guardInit (some "u1") (fun _ => Except.ok none)).signedOut = false ∧
    (loginHandleSubmit "a@b.c" "pw" (Except.ok "u1") (fun _ => Except.ok none)).signedOut = true ∧
    (loginHandleSubmit "a@b.c" "pw" (Except.ok "u1")
        (fun _ => Except.ok (some ⟨"user", "user@example.com"⟩))).signedOut = true := by
  have h := auth_fault_handling "u1" "a@b.c" "pw" ⟨"user", "user@example.com"⟩
    (by decide) (by decide) (by decide)
  exact ⟨h.2.1, h.2.2.2.2.2.2.1, h.2.2.2.2.2.2.2.2.2.1⟩

/-- Counterexample for C9: a sign-in fault with an unmapped code and a
non-empty message surfaces the raw fault message, not the generic retry
fallback, so the claim that unmapped faults always surface the generic
message is false on this code. -/
theorem login_raw_message_counterexample :
    (loginHandleSubmit "a@b.c" "pw"
        (Except.error ⟨some "auth/network-request-failed", some "boom"⟩)
        (fun _ => Except.ok none)).error = some "boom" ∧
    ("boom" : String) ≠ "Failed to sign in. Please try again." := by
  refine ⟨rfl, by decide⟩

/-- C9 amended: for sign-in faults with codes outside the five mapped
ones, the surfaced message is the raw fault message whenever one is
present and non-empty, and the generic retry fallback is surfaced
exactly when the fault carries no message or an empty one. -/
theorem login_unmapped_fault_message (email password : String) (e : FaultObj)
    (fetch : String → Except FaultObj (Option UserDoc))
    (he : email ≠ "") (hp : password ≠ "")
    (hc1 : e.code ≠ some "auth/user-not-found")
    (hc2 : e.code ≠ some "auth/wrong-password")
    (hc3 : e.code ≠ some "auth/invalid-email")
    (hc4 : e.code ≠ some "auth/user-disabled")
    (hc5 : e.code ≠ some "auth/too-many-requests") :
    (loginHandleSubmit email password (Except.error e) fetch).error = some (loginErrorMessage e) ∧
    (∀ m, e.message = some m → m ≠ "" → loginErrorMessage e = m) ∧
    ((e.message = none ∨ e.message = some "") →
      loginErrorMessage e = "Failed to sign in. Please try again.") := by
  refine ⟨by simp [loginHandleSubmit, he, hp], ?_, ?_⟩
  · intro m hm hne
    simp [loginErrorMessage, hc1, hc2, hc3, hc4, hc5, hm, hne]
  · rintro (hm | hm) <;> simp [loginErrorMessage, hc1, hc2, hc3, hc4, hc5, hm]

/-- Witness for the C9 amended theorem at concrete faults. -/
theorem login_unmapped_fault_message_witness :
    (loginHandleSubmit "a@b.c" "pw"
        (Except.error ⟨some "auth/internal-error", some "boom"⟩)
        (fun _ => Except.ok none)).error
      = some (loginErrorMessage ⟨some "auth/internal-error", some "boom"⟩) ∧
    loginErrorMessage ⟨some "auth/internal-error", some "boom"⟩ = "boom" ∧
    loginErrorMessage ⟨some "auth/internal-error", none⟩
      = "Failed to sign in. Please try again." := by
  have h1 := login_unmapped_fault_message "a@b.c" "pw"
    ⟨some "auth/internal-error", some "boom"⟩ (fun _ => Except.ok none)
    (by decide) (by decide) (by decide) (by decide) (by decide) (by decide) (by decide)
  have h2 := login_unmapped_fault_message "a@b.c" "pw"
    ⟨some "auth/internal-error", none⟩ (fun _ => Except.ok none)
    (by decide) (by decide) (by decide) (by decide) (by decide) (by decide) (by decide)
  exact ⟨h1.1, h1.2.1 "boom" rfl (by decide), h2.2.2 (Or.inl rfl)⟩

/-- While an assignment is in flight, every user-interface event is a
no-op that issues no write: the Assign click declines, the selector and
the dialog buttons are disabled, and the backdrop dismiss is guarded. -/
theorem uiStep_of_isAssigning (s : DetailState) (e : UIEvent) (h : s.isAssigning = true) :
    uiStep s e = (s, 0) := by
  cases e with
  | selectTech tid => simp [uiStep, h]
  | assignClick =>
    cases hb : s.booking with
    | none => simp [uiStep, handleAssignClick, hb]
    | some b => simp [uiStep, handleAssignClick, hb, h]
  | confirmClick => simp [uiStep, h]
  | backdropClick => simp [uiStep, h]
  | cancelClick => simp [uiStep, h]

/-- While an assignment is in flight, a whole event sequence leaves the
state unchanged and issues no write. -/
theorem runUI_of_isAssigning (s : DetailState) (evs : List UIEvent) (h : s.isAssigning = true) :
    runUI s evs = (s, 0) := by
  induction evs with
  | nil => rfl
  | cons e rest ih => simp [runUI, uiStep_of_isAssigning s e h, ih]

/-- Any single event issues no write, or issues exactly one write and
enters the single-flight state. -/
theorem uiStep_write_bound (s : DetailState) (e : UIEvent) :
    (uiStep s e).2 = 0 ∨ ((uiStep s e).2 = 1 ∧ (uiStep s e).1.isAssigning = true) := by
  cases e with
  | selectTech tid =>
    by_cases h : s.isAssigning = true <;> simp [uiStep, h]
  | assignClick => simp [uiStep]
  | confirmClick =>
    by_cases hc : (s.showConfirmDialog && !s.isAssigning) = true
    · cases hb : s.booking with
      | none => simp [uiStep, handleAssignStart, hc, hb]
      | some b =>
        by_cases hg : s.selectedTechnicianId = "" ∨ jsTruthy b.technicianId = true
        · simp [uiStep, handleAssignStart, hc, hb, hg]
        · right
          simp [uiStep, handleAssignStart, hc, hb, hg]
    · simp [uiStep, hc]
  | backdropClick =>
    by_cases hc : (s.showConfirmDialog && !s.isAssigning) = true <;> simp [uiStep, hc]
  | cancelClick =>
    by_cases hc : (s.showConfirmDialog && !s.isAssigning) = true <;> simp [uiStep, hc]

/-- C3: the single-flight invariant. Over every sequence of
user-interface events on the booking detail page, at most one backend
write is issued; and from any state where an assignment write is
already pending (the assigning flag is set), repeated confirmation
attempts issue zero further writes. -/
theorem single_flight (s : DetailState) (evs : List UIEvent) :
    (runUI s evs).2 ≤ 1 ∧ (s.isAssigning = true → (runUI s evs).2 = 0) := by
  constructor
  · induction evs generalizing s with
    | nil => simp [runUI]
    | cons e rest ih =>
      rcases uiStep_write_bound s e with h0 | ⟨h1, ha⟩
      · have : (runUI s (e :: rest)).2 = (runUI (uiStep s e).1 rest).2 := by
          simp [runUI, h0]
        rw [this]
        exact ih _
      · have hrest : runUI (uiStep s e).1 rest = ((uiStep s e).1, 0) :=
          runUI_of_isAssigning _ rest ha
        simp [runUI, h1, hrest]
  · intro h
    rw [runUI_of_isAssigning s evs h]

/-- Witness for the C3 theorem: from a concrete pending state, a burst
of repeated confirmation attempts issues zero writes. -/
theorem single_flight_witness :
    (runUI
        { booking := some ⟨"svc1", none, "pending", "C", "P", "A", 1, 2, none⟩,
          technician := none, activeTechnicians := [⟨"t1", "Asha", ["wiring"]⟩],
          selectedTechnicianId := "t1", isAssigning := true,
          assignmentMessage := none, showConfirmDialog := false }
        [UIEvent.assignClick, UIEvent.confirmClick, UIEvent.confirmClick,
         UIEvent.assignClick, UIEvent.confirmClick]).2 = 0 :=
  (single_flight
    { booking := some ⟨"svc1", none, "pending", "C", "P", "A", 1, 2, none⟩,
      technician := none, activeTechnicians := [⟨"t1", "Asha", ["wiring"]⟩],
      selectedTechnicianId := "t1", isAssigning := true,
      assignmentMessage := none, showConfirmDialog := false }
    [UIEvent.assignClick, UIEvent.confirmClick, UIEvent.confirmClick,
     UIEvent.assignClick, UIEvent.confirmClick]).2 rfl

/-- C7: the confirmation gate. Selecting a technician, clicking Assign,
and dismissing the confirmation dialog via the backdrop or the Cancel
button all issue zero backend writes; selection only stages the choice
(the booking and the technician detail are untouched); and either
dismissal preserves the staged selection, the booking, the technician
detail, and the result message. -/
theorem confirmation_gate (s : DetailState) (tid : String) :
    (uiStep s (UIEvent.selectTech tid)).2 = 0 ∧
    (uiStep s (UIEvent.selectTech tid)).1.booking = s.booking ∧
    (uiStep s (UIEvent.selectTech tid)).1.technician = s.technician ∧
    (uiStep s UIEvent.assignClick).2 = 0 ∧
    (uiStep s UIEvent.backdropClick).2 = 0 ∧
    (uiStep s UIEvent.backdropClick).1.selectedTechnicianId = s.selectedTechnicianId ∧
    (uiStep s UIEvent.backdropClick).1.booking = s.booking ∧
    (uiStep s UIEvent.backdropClick).1.technician = s.technician ∧
    (uiStep s UIEvent.backdropClick).1.assignmentMessage = s.assignmentMessage ∧
    (uiStep s UIEvent.cancelClick).2 = 0 ∧
    (uiStep s UIEvent.cancelClick).1.selectedTechnicianId = s.selectedTechnicianId ∧
    (uiStep s UIEvent.cancelClick).1.booking = s.booking ∧
    (uiStep s UIEvent.cancelClick).1.technician = s.technician ∧
    (uiStep s UIEvent.cancelClick).1.assignmentMessage = s.assignmentMessage := by
  by_cases ha : s.isAssigning = true <;>
    by_cases hd : s.showConfirmDialog = true <;>
      simp [uiStep, ha, hd]

end AdminDash
